import Mathlib

/-
Shallow embedding of the jvc_projector client (session manager in
src/jvc_projector_remote/jvcprojector.py, command codec in
src/jvc_projector/jvccommands.py).  Bytes are modelled as Nat, byte
strings as List Nat, Python dicts as association lists in insertion
order.  Network effects are made explicit: each operation takes a
scripted environment describing what the device/OS does at every
send/recv, and socket state (open flag plus the list of frames sent so
far) is threaded through.  The distributed package pairs the session
file with a codec module that is not part of this tree; following the
spec's error taxonomy, the codec's communication failures are the
Command error kind that the session layer catches, and its lookup
failures surface as uncaught KeyError.
-/

namespace JVC

/-- ASCII code points of a string, as Python bytes(s, "ascii") for ASCII text. -/
def ab (s : String) : List Nat := s.toList.map Char.toNat

/-- Operation (set) header, b"!\x89\x01". -/
def OPR : List Nat := [0x21, 0x89, 0x01]

/-- Reference (get) header, b"?\x89\x01". -/
def REF : List Nat := [0x3F, 0x89, 0x01]

/-- Response header, b"@\x89\x01". -/
def RES : List Nat := [0x40, 0x89, 0x01]

/-- Projector ack header, b"\x06\x89\x01". -/
def ACKH : List Nat := [0x06, 0x89, 0x01]

/-- Length of ACKs sent by the projector. -/
def COM_ACK_LENGTH : Nat := 6

/-- Python dict lookup d[k] on an association list (keys are unique in the catalog). -/
def dictGet (d : List (String × List Nat)) (k : String) : Option (List Nat) :=
  (d.find? (fun p => p.1 == k)).map Prod.snd

/-- Lookup in the inverted dict built by self.read_valsinv; on duplicate
values the later insertion wins, hence the search over the reversed list. -/
def dictInvGet (d : List (String × List Nat)) (v : List Nat) : Option String :=
  (d.reverse.find? (fun p => p.2 == v)).map Prod.fst

/-- Python bytes.startswith. -/
def pyStartswith : List Nat → List Nat → Bool
  | _, [] => true
  | [], _ :: _ => false
  | x :: xs, y :: ys => x == y && pyStartswith xs ys

/-- Python bytes.ljust: right-pad with fill up to width, unchanged when already long enough. -/
def pyLjust (l : List Nat) (width : Nat) (fill : Nat) : List Nat :=
  l ++ List.replicate (width - l.length) fill

/-- Error kinds raised by the client.  configError is JVCConfigError,
connectionError is JVCConnectionError, handshakeError is JVCHandshakeError,
commandError is the command-level communication failure the session layer
catches, commandNotFoundError is JVCCommandNotFoundError; keyError and
unicodeDecodeError are the uncaught Python exceptions of those names, osError
is an uncaught OSError and runtimeError the RuntimeError wrapper used at the
dispatch layer. -/
inductive JVCError where
  | configError
  | connectionError
  | handshakeError
  | commandError
  | commandNotFoundError
  | keyError (key : List Nat)
  | unicodeDecodeError
  | osError
  | runtimeError
deriving DecidableEq

instance instDecEqExcept {ε α : Type} [DecidableEq ε] [DecidableEq α] :
    DecidableEq (Except ε α) := fun a b =>
  match a, b with
  | .error e, .error f =>
    if h : e = f then isTrue (by subst h; rfl)
    else isFalse (fun hh => h (by cases hh; rfl))
  | .ok x, .ok y =>
    if h : x = y then isTrue (by subst h; rfl)
    else isFalse (fun hh => h (by cases hh; rfl))
  | .error _, .ok _ => isFalse (fun hh => by cases hh)
  | .ok _, .error _ => isFalse (fun hh => by cases hh)

/-- Python str.decode("ascii"): succeeds only when every byte is below 128. -/
def decodeAscii (l : List Nat) : Except JVCError String :=
  if l.all (fun b => decide (b < 128)) then .ok (String.mk (l.map Char.ofNat))
  else .error .unicodeDecodeError

/-- State of one TCP socket object: whether it is open and the frames sent on it. -/
structure SockState where
  isOpen : Bool
  sent : List (List Nat)
deriving DecidableEq

/-- sock.close(). -/
def SockState.closeS (s : SockState) : SockState := { s with isOpen := false }

/-- A freshly connected socket. -/
def openSock : SockState := ⟨true, []⟩

/-- A closed socket object. -/
def closedSock : SockState := ⟨false, []⟩

/-- Outcome of a send scripted by the environment. -/
inductive SendOutcome where
  | ok
  | oserr
deriving DecidableEq

/-- Outcome of a recv scripted by the environment. -/
inductive RecvOutcome where
  | ok (data : List Nat)
  | timeout
  | oserr
deriving DecidableEq

/-- Device/OS behaviour for one command exchange. -/
structure NetEnv where
  sendRes : SendOutcome
  ackRecv : RecvOutcome
  respRecv : RecvOutcome
deriving DecidableEq

/-- sendall on a closed socket raises OSError regardless of the script. -/
def sendEff (s : SockState) (o : SendOutcome) : SendOutcome :=
  if s.isOpen then o else .oserr

/-- recv on a closed socket raises OSError regardless of the script. -/
def recvEff (s : SockState) (o : RecvOutcome) : RecvOutcome :=
  if s.isOpen then o else .oserr

/-- One command group of the static catalog (class Command in jvccommands.py). -/
structure Command where
  cmd : List Nat
  name : String
  writeVals : List (String × List Nat)
  readVals : List (String × List Nat)
  writeOnly : Bool
  readOnly : Bool
  verifyWrite : Bool
deriving DecidableEq

/-- Command.__init__: with a single dict the write and read tables share it
unless write_only or read_only selects one side; with two dicts the first is
the write table and the second the read table; with none both are empty. -/
def Command.make (cmd : List Nat) (name : String)
    (rwvals : List (List (String × List Nat)))
    (writeOnly readOnly verifyWrite : Bool) : Command :=
  match rwvals with
  | [d] =>
    if writeOnly then ⟨cmd, name, d, [], writeOnly, readOnly, verifyWrite⟩
    else if readOnly then ⟨cmd, name, [], d, writeOnly, readOnly, verifyWrite⟩
    else ⟨cmd, name, d, d, writeOnly, readOnly, verifyWrite⟩
  | [d1, d2] => ⟨cmd, name, d1, d2, writeOnly, readOnly, verifyWrite⟩
  | _ => ⟨cmd, name, [], [], writeOnly, readOnly, verifyWrite⟩

/-- self.ack = ACKH + self.cmd[0:2] + b"\n". -/
def Command.ackOf (c : Command) : List Nat := ACKH ++ c.cmd.take 2 ++ [10]

/-- Command.__send: sendall the frame; an OSError closes the socket and raises
the communication error. -/
def Command.send2 (o : SendOutcome) (s : SockState) (frame : List Nat) :
    Except (JVCError × SockState) SockState :=
  match sendEff s o with
  | .ok => .ok { s with sent := s.sent ++ [frame] }
  | .oserr => .error (.commandError, s.closeS)

/-- Command.__verify_ack: recv up to COM_ACK_LENGTH bytes; timeout or OSError
closes and raises; a reply not starting with ACKH, or differing from the
group's expected ack, closes and raises (with distinct diagnostic messages). -/
def Command.verifyAck (c : Command) (o : RecvOutcome) (s : SockState) :
    Except (JVCError × SockState) SockState :=
  match recvEff s o with
  | .timeout => .error (.commandError, s.closeS)
  | .oserr => .error (.commandError, s.closeS)
  | .ok ackData =>
    if ¬ (pyStartswith ackData ACKH) then .error (.commandError, s.closeS)
    else if ackData ≠ Command.ackOf c then .error (.commandError, s.closeS)
    else .ok s

/-- Tail of Command.write after the frame is built: send it, then either skip
verification (closing the socket) or verify the ack and close. -/
def Command.writeSend (c : Command) (env : NetEnv) (s : SockState)
    (frame : List Nat) : Except JVCError Unit × SockState :=
  match Command.send2 env.sendRes s frame with
  | .error (e, s1) => (.error e, s1)
  | .ok s1 =>
    if !c.verifyWrite then (.ok (), s1.closeS)
    else
      match Command.verifyAck c env.ackRecv s1 with
      | .error (e, s2) => (.error e, s2)
      | .ok s2 => (.ok (), s2.closeS)

/-- Command.write: read_only groups refuse; the value resolves through the
write table, a missing key falling back to the value-less frame when both the
value and the table are empty, and to CommandNotFound otherwise. -/
def Command.write (c : Command) (env : NetEnv) (s : SockState) (value : String) :
    Except JVCError Unit × SockState :=
  if c.readOnly then (.error .commandNotFoundError, s.closeS)
  else
    match dictGet c.writeVals value with
    | some v => Command.writeSend c env s (OPR ++ c.cmd ++ v ++ [10])
    | none =>
      if value = "" ∧ c.writeVals = [] then
        Command.writeSend c env s (OPR ++ c.cmd ++ [10])
      else if value = "" ∧ c.writeOnly then (.error .commandNotFoundError, s.closeS)
      else (.error .commandNotFoundError, s.closeS)

/-- Command.read: write_only groups refuse; sends REF + cmd + newline,
verifies the ack, receives the response, closes the socket, checks the
response header, strips resp[len(RES)+2:-1], and decodes either through the
read table (an unmatched payload is an uncaught KeyError) or as ASCII text. -/
def Command.read (c : Command) (env : NetEnv) (s : SockState) :
    Except JVCError String × SockState :=
  if c.writeOnly then (.error .commandNotFoundError, s.closeS)
  else
    match Command.send2 env.sendRes s (REF ++ c.cmd ++ [10]) with
    | .error (e, s1) => (.error e, s1)
    | .ok s1 =>
      match Command.verifyAck c env.ackRecv s1 with
      | .error (e, s2) => (.error e, s2)
      | .ok s2 =>
        match recvEff s2 env.respRecv with
        | .timeout => (.error .commandError, s2.closeS)
        | .oserr => (.error .commandError, s2.closeS)
        | .ok resp =>
          let s3 := s2.closeS
          if ¬ pyStartswith resp (RES ++ c.cmd.take 2) then (.error .commandError, s3)
          else
            let stripped := (resp.drop (RES.length + 2)).dropLast
            if c.readVals = [] then (decodeAscii stripped, s3)
            else
              match dictInvGet c.readVals stripped with
              | some nm => (.ok nm, s3)
              | none => (.error (.keyError stripped), s3)

/-- Commands.power. -/
def power : Command := Command.make (ab "PW") "power"
  [[("on", ab "1"), ("off", ab "0")],
   [("standby", ab "0"), ("lamp_on", ab "1"), ("cooling", ab "2"),
    ("reserved", ab "3"), ("emergency", ab "4")]]
  false false true

/-- Commands.memory. -/
def memory : Command := Command.make (ab "INML") "memory"
  [[("1", ab "0"), ("2", ab "1"), ("3", ab "2"), ("4", ab "3"), ("5", ab "4")]]
  true false true

/-- Commands.input. -/
def inputCmd : Command := Command.make (ab "IP") "input"
  [[("hdmi1", ab "6"), ("hdmi2", ab "7")]]
  false false true

/-- Commands.picture_mode. -/
def picture_mode : Command := Command.make (ab "PMPM") "picture_mode"
  [[("film", ab "00"), ("cinema", ab "01"), ("natural", ab "03"),
    ("hdr10", ab "04"), ("thx", ab "06"), ("user1", ab "0C"),
    ("user2", ab "0D"), ("user3", ab "0E"), ("user4", ab "0F"),
    ("user5", ab "10"), ("user6", ab "11"), ("hlg", ab "14")]]
  false false true

/-- Commands.low_latency. -/
def low_latency : Command := Command.make (ab "PMLL") "low_latency"
  [[("on", ab "1"), ("off", ab "0")]]
  false false true

/-- Commands.mask. -/
def mask : Command := Command.make (ab "ISMA") "mask"
  [[("off", ab "2"), ("custom1", ab "0"), ("custom2", ab "1"), ("custom3", ab "3")]]
  false false true

/-- Commands.lamp. -/
def lamp : Command := Command.make (ab "PMLP") "lamp"
  [[("high", ab "1"), ("low", ab "0")]]
  false false true

/-- Commands.menu. -/
def menu : Command := Command.make (ab "RC73") "menu"
  [[("menu", ab "2E"), ("down", ab "02"), ("left", ab "36"), ("right", ab "34"),
    ("up", ab "01"), ("ok", ab "2F"), ("back", ab "03")]]
  true false true

/-- Commands.aperture. -/
def aperture : Command := Command.make (ab "PMDI") "aperture"
  [[("off", ab "0"), ("auto1", ab "1"), ("auto2", ab "2")]]
  false false true

/-- Commands.anamorphic. -/
def anamorphic : Command := Command.make (ab "INVS") "anamorphic"
  [[("off", ab "0"), ("a", ab "1"), ("b", ab "2"), ("c", ab "3")]]
  false false true

/-- Commands.signal. -/
def signal : Command := Command.make (ab "SC") "signal"
  [[("no_signal", ab "0"), ("active_signal", ab "1")]]
  false true true

/-- Commands.macaddr. -/
def macaddr : Command := Command.make (ab "LSMA") "macaddr" [] false true true

/-- Commands.modelinfo. -/
def modelinfo : Command := Command.make (ab "MD") "modelinfo" [] false true true

/-- Commands.nullcmd, operation code b"\x00\x00". -/
def nullcmd : Command := Command.make [0, 0] "nullcmd" [] true false true

/-- The static catalog of command groups (class Commands). -/
def CommandsCatalog : List (String × Command) :=
  [("power", power), ("memory", memory), ("input", inputCmd),
   ("picture_mode", picture_mode), ("low_latency", low_latency),
   ("mask", mask), ("lamp", lamp), ("menu", menu), ("aperture", aperture),
   ("anamorphic", anamorphic), ("signal", signal), ("macaddr", macaddr),
   ("modelinfo", modelinfo), ("nullcmd", nullcmd)]

/-- getattr(Commands, name) restricted to the Command-valued attributes:
looks the name up in the catalog. -/
def getCommand (nm : String) : Option Command :=
  (CommandsCatalog.find? (fun p => p.1 == nm)).map Prod.snd

/-- Attributes the class object Commands carries besides the fourteen Command
instances: the class-machinery names every CPython class answers hasattr for
(its docstring, module metadata and the inherited dunder protocol, plus the
methods looked up on type such as mro).  The two dispatch theorems below are
insensitive to the exact membership of this list — one covers every name
with hasattr false, the other every name with hasattr true that is not a
catalog group — so the enumeration only feeds concrete witnesses such as
"__doc__". -/
def dunderNames : List String :=
  ["__doc__", "__module__", "__qualname__", "__dict__", "__weakref__",
   "__name__", "__bases__", "__base__", "__mro__", "mro", "__subclasses__",
   "__call__", "__init__", "__new__", "__init_subclass__", "__subclasshook__",
   "__class__", "__delattr__", "__dir__", "__eq__", "__format__", "__ge__",
   "__getattribute__", "__gt__", "__hash__", "__le__", "__lt__", "__ne__",
   "__reduce__", "__reduce_ex__", "__repr__", "__setattr__", "__sizeof__",
   "__str__", "__dictoffset__", "__basicsize__", "__itemsize__", "__flags__"]

/-- hasattr(Commands, name): true for every catalog group and for the
non-Command class attributes. -/
def hasattrCommands (nm : String) : Bool :=
  (getCommand nm).isSome || dunderNames.contains nm

/-- Outcome of one socket.connect attempt, scripted by the environment. -/
inductive ConnOutcome where
  | success
  | timeout
  | oserr (errno : Nat)
deriving DecidableEq

/-- Observable events of the connect loop: a connect attempt, and the
throttle wait performed between retries. -/
inductive Event where
  | attempt
  | throttleWait
deriving DecidableEq

/-- Result of JVCProjector.__connect: the outcome, the socket object left in
self.jvc_sock, and the trace of attempts and throttle waits. -/
structure ConnRes where
  res : Except JVCError Unit
  sock : SockState
  events : List Event
deriving DecidableEq

/-- errno.EISCONN on Linux. -/
def EISCONN : Nat := 106

/-- JVCProjector.__connect: a fresh socket per call; timeout closes it and
raises the connection error with no retry; an OSError closes it, then EISCONN
returns as success, a retry below max_retries throttles and recurses, and
exhausted retries raise the connection error wrapping the last cause. -/
def connectAux (maxRetries : Nat) : List ConnOutcome → Nat → ConnRes
  | [], _ => ⟨.error .connectionError, closedSock, []⟩
  | o :: rest, retry =>
    match o with
    | .success => ⟨.ok (), openSock, [.attempt]⟩
    | .timeout => ⟨.error .connectionError, closedSock, [.attempt]⟩
    | .oserr e =>
      if e = EISCONN then ⟨.ok (), closedSock, [.attempt]⟩
      else if retry < maxRetries then
        let r := connectAux maxRetries rest (retry + 1)
        ⟨r.res, r.sock, .attempt :: .throttleWait :: r.events⟩
      else ⟨.error .connectionError, closedSock, [.attempt]⟩

/-- Expected trace of n failed attempts, each followed by a throttle wait,
then one more attempt. -/
def refusalTrace : Nat → List Event
  | 0 => [.attempt]
  | n + 1 => .attempt :: .throttleWait :: refusalTrace n

/-- Device/OS behaviour for one handshake: the connect script and the
outcomes of the greeting recv, the request send and the ack recv. -/
structure HsEnv where
  connectScript : List ConnOutcome
  greetRecv : RecvOutcome
  sendReqRes : SendOutcome
  ackRecv : RecvOutcome
deriving DecidableEq

/-- Mutable session state: configured password, max_retries, and the optional
socket handle self.jvc_sock (connect timeout, throttle delay and timestamps
do not affect the modelled control flow). -/
structure Session where
  password : String
  maxRetries : Nat
  sock : Option SockState
deriving DecidableEq

/-- JVC_GRT = b"PJ_OK". -/
def JVC_GRT : List Nat := ab "PJ_OK"

/-- JVC_ACK = b"PJACK". -/
def JVC_ACK : List Nat := ab "PJACK"

/-- JVC_REQ as built at the top of handshake(): with a configured password
the bytes "PJREQ" + "_" + password are ljust-padded to 10 with NUL, with no
password the bare "PJREQ". -/
def pjreq (password : String) : List Nat :=
  if password ≠ "" then pyLjust (ab ("PJREQ" ++ "_" ++ password)) 10 0
  else ab "PJREQ"

/-- Password length validation in JVCProjector.__init__: a truthy password
shorter than 8 or longer than 10 characters raises the config error. -/
def initPasswordCheck (password : String) : Except JVCError Unit :=
  if password ≠ "" then
    if password.length < 8 then .error .configError
    else if password.length > 10 then .error .configError
    else .ok ()
  else .ok ()

/-- JVCProjector.handshake: returns at once when a handle is present;
otherwise connects (leaving whatever socket __connect assigned in the handle
on failure), then checks the greeting (timeout is a connection error, any
other reply than PJ_OK a handshake error, both releasing the handle), sends
JVC_REQ (an OSError closes the socket but keeps the handle and raises the
connection error), and checks the ack like the greeting. -/
def handshake (env : HsEnv) (sess : Session) : Except JVCError Unit × Session :=
  match sess.sock with
  | some _ => (.ok (), sess)
  | none =>
    let c := connectAux sess.maxRetries env.connectScript 0
    match c.res with
    | .error e => (.error e, { sess with sock := some c.sock })
    | .ok _ =>
      let s0 := c.sock
      match recvEff s0 env.greetRecv with
      | .timeout => (.error .connectionError, { sess with sock := none })
      | .oserr => (.error .osError, { sess with sock := some s0 })
      | .ok msg =>
        if msg ≠ JVC_GRT then (.error .handshakeError, { sess with sock := none })
        else
          match sendEff s0 env.sendReqRes with
          | .oserr => (.error .connectionError, { sess with sock := some s0.closeS })
          | .ok =>
            let s1 : SockState := { s0 with sent := s0.sent ++ [pjreq sess.password] }
            match recvEff s1 env.ackRecv with
            | .timeout => (.error .connectionError, { sess with sock := none })
            | .oserr => (.error .osError, { sess with sock := some s1 })
            | .ok msg2 =>
              if msg2 ≠ JVC_ACK then (.error .handshakeError, { sess with sock := none })
              else (.ok (), { sess with sock := some s1 })

/-- Result value of a command: True for writes, the decoded string for reads. -/
inductive ResultVal where
  | b (x : Bool)
  | s (x : String)
deriving DecidableEq

/-- Body of the try block of JVCProjector.send_command plus its two except
clauses: writes when a value is given, value-lessly writes for write_only
groups, reads otherwise; a connection error closes and releases the handle
before re-raising, a command error re-raises without touching the handle, and
any other codec failure propagates with the handle still set.  On success the
handle keeps pointing at the socket object the codec just used (and closed).
The none case is the assert self.jvc_sock is not None, unreachable after a
successful handshake. -/
def send_commandBody (env : NetEnv) (sess : Session) (c : Command)
    (writeValue : String) : Except JVCError ResultVal × Session :=
  match sess.sock with
  | none => (.error .runtimeError, sess)
  | some s =>
    let step : Except JVCError ResultVal × SockState :=
      if writeValue ≠ "" then
        match Command.write c env s writeValue with
        | (.ok _, s1) => (.ok (.b true), s1)
        | (.error e, s1) => (.error e, s1)
      else if c.writeOnly then
        match Command.write c env s "" with
        | (.ok _, s1) => (.ok (.b true), s1)
        | (.error e, s1) => (.error e, s1)
      else
        match Command.read c env s with
        | (.ok r, s1) => (.ok (.s r), s1)
        | (.error e, s1) => (.error e, s1)
    match step with
    | (.ok v, s1) => (.ok v, { sess with sock := some s1 })
    | (.error .connectionError, _) => (.error .connectionError, { sess with sock := none })
    | (.error .commandError, s1) => (.error .commandError, { sess with sock := some s1 })
    | (.error e, s1) => (.error e, { sess with sock := some s1 })

/-- JVCProjector.send_command: handshakes when no handle is held (errors from
the handshake propagate untouched), then runs the command body on the held
socket. -/
def send_command (hsEnv : HsEnv) (env : NetEnv) (sess : Session) (c : Command)
    (writeValue : String) : Except JVCError ResultVal × Session :=
  match sess.sock with
  | none =>
    match handshake hsEnv sess with
    | (.error e, sess1) => (.error e, sess1)
    | (.ok _, sess1) => send_commandBody env sess1 c writeValue
  | some _ => send_commandBody env sess c writeValue

/-- Python command.split("-") on the character list of the string. -/
def splitOnH : List Char → List (List Char)
  | [] => [[]]
  | c :: cs =>
    if c = '-' then [] :: splitOnH cs
    else
      match splitOnH cs with
      | [] => [[c]]
      | seg :: rest => (c :: seg) :: rest

/-- commandspl[0]: the group-name part of the split command string. -/
def parsedGroupL (l : List Char) : List Char := (splitOnH l).headD []

/-- commandspl[1] when the split has more than one element, empty otherwise:
the write-value part of the split command string. -/
def parsedValueL (l : List Char) : List Char :=
  if (splitOnH l).length > 1 then (splitOnH l).getD 1 [] else []

/-- String form of parsedGroupL. -/
def parsedGroup (s : String) : String := String.mk (parsedGroupL s.data)

/-- String form of parsedValueL. -/
def parsedValue (s : String) : String := String.mk (parsedValueL s.data)

/-- JVCProjector.command: a group name failing the hasattr test logs a
warning and returns False; a name passing hasattr but naming a non-Command
class attribute (such as __doc__) reaches send_command, which handshakes and
then fails with AttributeError on the non-Command, which the except
Exception clause converts to RuntimeError after __close — the handle is
released and the session otherwise unchanged whatever the handshake did;
a catalog group delegates to send_command with the parsed write value, a
command error being converted to False when ignore_non_crit_error is set and
otherwise closing the handle and re-raising, and every other exception
closing the handle and raising RuntimeError. -/
def command (hsEnv : HsEnv) (env : NetEnv) (sess : Session) (cmdStr : String)
    (ignoreNonCrit : Bool) : Except JVCError ResultVal × Session :=
  if hasattrCommands (parsedGroup cmdStr) = false then (.ok (.b false), sess)
  else
    match getCommand (parsedGroup cmdStr) with
    | none => (.error .runtimeError, { sess with sock := none })
    | some c =>
      match send_command hsEnv env sess c (parsedValue cmdStr) with
      | (.ok v, sess1) => (.ok v, sess1)
      | (.error .commandError, sess1) =>
        if ignoreNonCrit then (.ok (.b false), sess1)
        else (.error .commandError, { sess1 with sock := none })
      | (.error _, sess1) => (.error .runtimeError, { sess1 with sock := none })

/-- Scripted environment for one exchange of the batch loop. -/
structure ExchEnv where
  hs : HsEnv
  net : NetEnv
deriving DecidableEq

/-- Fallback environment where every network action fails. -/
def deadEnv : ExchEnv := ⟨⟨[], .oserr, .oserr, .oserr⟩, ⟨.oserr, .oserr, .oserr⟩⟩

/-- JVCProjector.commands: iterates the command strings, appending False for
names failing the hasattr test and for suppressed command errors, the result
otherwise; a name passing hasattr that is not a catalog group fails with
AttributeError inside the loop, becoming RuntimeError after __close like any
other unexpected exception; an unsuppressed command error closes the handle
and re-raises — and the accumulated ret_list is dropped when the loop ends:
the function falls off its end and returns None. -/
def commandsAux : List ExchEnv → Session → List String → Bool → List ResultVal →
    Except JVCError (Option (List ResultVal)) × Session
  | _, sess, [], _, _ => (.ok none, sess)
  | envs, sess, cmdStr :: rest, ign, retList =>
    if hasattrCommands (parsedGroup cmdStr) = false then
      commandsAux envs sess rest ign (retList ++ [.b false])
    else
      match getCommand (parsedGroup cmdStr) with
      | none => (.error .runtimeError, { sess with sock := none })
      | some c =>
        let e := envs.headD deadEnv
        match send_command e.hs e.net sess c (parsedValue cmdStr) with
        | (.ok v, sess1) => commandsAux envs.tail sess1 rest ign (retList ++ [v])
        | (.error .commandError, sess1) =>
          if ign then commandsAux envs.tail sess1 rest ign (retList ++ [.b false])
          else (.error .commandError, { sess1 with sock := none })
        | (.error _, sess1) => (.error .runtimeError, { sess1 with sock := none })

/-- Entry point of JVCProjector.commands. -/
def commandsRun (envs : List ExchEnv) (sess : Session) (cmdList : List String)
    (ign : Bool) : Except JVCError (Option (List ResultVal)) × Session :=
  commandsAux envs sess cmdList ign []

/-- A handshake environment where the device behaves correctly. -/
def goodHs : HsEnv := ⟨[.success], .ok JVC_GRT, .ok, .ok JVC_ACK⟩

/-- An exchange environment where the device correctly acknowledges a write
to the power group. -/
def goodPowerNet : NetEnv := ⟨.ok, .ok (Command.ackOf power), .ok []⟩

/-- A fresh session with no password and the default five retries. -/
def sess0 : Session := ⟨"", 5, none⟩

/-- A byte list starts with itself followed by anything. -/
theorem pyStartswith_append (l x : List Nat) : pyStartswith (l ++ x) l = true := by
  induction l with
  | nil => cases x <;> rfl
  | cons a t ih => simp [pyStartswith, ih]

/-- The split of a command string is never empty. -/
theorem splitOnH_ne_nil (l : List Char) : splitOnH l ≠ [] := by
  induction l with
  | nil => simp [splitOnH]
  | cons c cs _ =>
    simp only [splitOnH]
    split
    · simp
    · split <;> simp

/-- The first segment of the split is the prefix before the first hyphen. -/
theorem splitOnH_head (l : List Char) :
    (splitOnH l).headD [] = l.takeWhile (fun c => c != '-') := by
  induction l with
  | nil => rfl
  | cons c cs ih =>
    by_cases h : c = '-'
    · subst h; simp [splitOnH]
    · simp only [splitOnH, if_neg h]
      cases hs : splitOnH cs with
      | nil => exact absurd hs (splitOnH_ne_nil cs)
      | cons seg rest =>
        rw [hs] at ih
        simp only [List.headD] at ih
        simp [List.takeWhile_cons, h, ih]

/-- Splitting at a hyphen that follows a hyphen-free prefix peels that prefix
off as the first segment. -/
theorem splitOnH_hyphen_append (g rest : List Char) (hg : ('-' : Char) ∉ g) :
    splitOnH (g ++ '-' :: rest) = g :: splitOnH rest := by
  induction g with
  | nil => simp [splitOnH]
  | cons c cs ih =>
    have hc : c ≠ '-' := fun h => hg (h ▸ List.mem_cons_self c cs)
    have hcs : ('-' : Char) ∉ cs := fun h => hg (List.mem_cons_of_mem c h)
    simp only [List.cons_append, splitOnH, if_neg hc, List.append_eq]
    rw [ih hcs]

/-- One step of the connect loop on a connection-refused error below the
retry limit: one attempt, one throttle wait, then the recursive call. -/
theorem connectAux_refused_step (m retry : Nat) (rest : List ConnOutcome)
    (hlt : retry < m) :
    connectAux m (.oserr 111 :: rest) retry =
      ⟨(connectAux m rest (retry + 1)).res, (connectAux m rest (retry + 1)).sock,
       .attempt :: .throttleWait :: (connectAux m rest (retry + 1)).events⟩ := by
  simp [connectAux, EISCONN, hlt]

/-- Retried connect: after N connection-refused attempts starting at the given
retry counter, the next scripted success yields a connected socket, with a
throttle wait between consecutive attempts. -/
theorem connect_refused_success (m : Nat) : ∀ (N retry : Nat), retry + N ≤ m →
    connectAux m (List.replicate N (ConnOutcome.oserr 111) ++ [ConnOutcome.success]) retry =
      ⟨.ok (), openSock, refusalTrace N⟩ := by
  intro N
  induction N with
  | zero => intro retry _; rfl
  | succ n ih =>
    intro retry h
    have hlt : retry < m := by omega
    have hr := ih (retry + 1) (by omega)
    rw [List.replicate_succ, List.cons_append, connectAux_refused_step m retry _ hlt, hr]
    rfl

/-- Exhausted connect: when every attempt up to the retry limit fails with
connection-refused the loop raises the connection error. -/
theorem connect_exhausted (m : Nat) : ∀ (N retry : Nat), retry + N = m →
    connectAux m (List.replicate (N + 1) (ConnOutcome.oserr 111)) retry =
      ⟨.error .connectionError, closedSock, refusalTrace N⟩ := by
  intro N
  induction N with
  | zero =>
    intro retry h
    have hge : ¬ retry < m := by omega
    simp [connectAux, EISCONN, hge, refusalTrace]
  | succ n ih =>
    intro retry h
    have hlt : retry < m := by omega
    have hr := ih (retry + 1) (by omega)
    rw [List.replicate_succ, connectAux_refused_step m retry _ hlt, hr]
    rfl

/-- Claim C1 (code bug, evaluation at the failing input): with the 8-character
password "abcdefgh" the handshake request token built at the top of
handshake() is the unpadded 14-byte b"PJREQ_abcdefgh".  The ljust(10) is
applied to the whole token b"PJREQ_" + password, which is already at least 14
bytes long, so it never appends any NUL padding; the token is not the
16-byte b"PJREQ_abcdefgh" + two NULs the claim requires, and only a
10-character password happens to reach 16 bytes. -/
theorem pjreq_password8_unpadded :
    pjreq "abcdefgh" = ab "PJREQ_abcdefgh" ∧
    (pjreq "abcdefgh").length = 14 ∧
    pjreq "abcdefgh" ≠ ab "PJREQ_abcdefgh" ++ [0, 0] ∧
    (pjreq "abcdefghi").length = 15 ∧
    (pjreq "abcdefghij").length = 16 := by
  decide

/-- Claim C2 (code bug, evaluation at the failing input): two consecutive
send_command calls for power-on against a correctly behaving device.  The
first succeeds, but the codec closed the socket at the end of the exchange
while the session kept the handle, so the retained handle is not a
handshaken ready channel; the second call therefore skips the handshake,
fails on the closed socket with the command error, and even then the handle
is not released before the error propagates. -/
theorem session_stale_handle_after_success :
    (send_command goodHs goodPowerNet sess0 power "on").1 = .ok (.b true) ∧
    (send_command goodHs goodPowerNet sess0 power "on").2.sock =
      some ⟨false, [ab "PJREQ", OPR ++ ab "PW" ++ ab "1" ++ [10]]⟩ ∧
    (send_command goodHs goodPowerNet
        (send_command goodHs goodPowerNet sess0 power "on").2 power "on").1 =
      .error .commandError ∧
    (send_command goodHs goodPowerNet
        (send_command goodHs goodPowerNet sess0 power "on").2 power "on").2.sock ≠
      none := by
  decide

/-- Claim C3 (code bug, evaluation at the failing input): the batch entry
point builds ret_list but has no return statement, so for the one-element
batch of a successful power-on it returns None rather than the same-length
list of results the claim requires. -/
theorem commands_batch_returns_none :
    (commandsRun [⟨goodHs, goodPowerNet⟩] sess0 ["power-on"] false).1 = .ok none ∧
    (commandsRun [⟨goodHs, goodPowerNet⟩] sess0 ["power-on"] false).1 ≠
      .ok (some [ResultVal.b true]) := by
  decide

/-- Claim C4 (counterexample): dispatching the unknown group name
"notagroup" does not raise CommandNotFound; command() logs a warning and
returns False, leaving the session untouched. -/
theorem command_unknown_group_returns_false :
    command goodHs goodPowerNet sess0 "notagroup" false = (.ok (.b false), sess0) ∧
    (command goodHs goodPowerNet sess0 "notagroup" false).1 ≠
      .error .commandNotFoundError := by
  decide

/-- Claim C4 (amended): dispatch returns False (after logging a warning),
rather than raising CommandNotFound, exactly for the command strings whose
group name is no attribute of the Commands class at all, leaving the session
untouched; a group name that is an attribute of the class but not a command
group — a class-machinery attribute such as "__doc__" or "mro" — slips past
the hasattr test instead: getattr hands the non-Command to send_command,
whose attribute access fails, and command() closes the channel and raises
RuntimeError.  Together the two cases cover every non-catalog group name,
whichever side of the hasattr test it falls on, and CommandNotFound is
raised in neither. -/
theorem command_unknown_group_amended (hsEnv : HsEnv) (env : NetEnv)
    (sess : Session) (cmdStr : String) (ign : Bool) :
    (hasattrCommands (parsedGroup cmdStr) = false →
      command hsEnv env sess cmdStr ign = (.ok (.b false), sess)) ∧
    (hasattrCommands (parsedGroup cmdStr) = true →
      getCommand (parsedGroup cmdStr) = none →
      command hsEnv env sess cmdStr ign =
        (.error .runtimeError, { sess with sock := none })) := by
  constructor
  · intro h
    simp [command, h]
  · intro h1 h2
    simp [command, h1, h2]

/-- Claim C4 (witness): the amended theorem applied to "nosuch", which is no
attribute of Commands and yields False, and to "__doc__", which passes the
hasattr test without being a catalog group and yields RuntimeError with the
handle released. -/
theorem command_unknown_group_amended_witness :
    command goodHs goodPowerNet sess0 "nosuch" true = (.ok (.b false), sess0) ∧
    command goodHs goodPowerNet sess0 "__doc__" true =
      (.error .runtimeError, { sess0 with sock := none }) :=
  ⟨(command_unknown_group_amended goodHs goodPowerNet sess0 "nosuch" true).1
      (by decide),
   (command_unknown_group_amended goodHs goodPowerNet sess0 "__doc__" true).2
      (by decide) (by decide)⟩

/-- Claim C5 (counterexample): for the command string "g-a-b" the write value
used by dispatch is "a", not the full remainder "a-b" after the first hyphen:
split("-") cuts at every hyphen and only element [1] is kept. -/
theorem parsedValue_second_hyphen_discard :
    parsedValue "g-a-b" = "a" ∧
    parsedValue "g-a-b" ≠ "a-b" ∧
    parsedGroup "g-a-b" = "g" := by
  decide

/-- Claim C5 (amended): dispatch splits the command string at every hyphen;
the group name is the prefix before the first hyphen and the write value is
the segment strictly between the first and second hyphens (anything after a
second hyphen is discarded). -/
theorem dispatch_split_amended (g v : List Char) (hg : ('-' : Char) ∉ g) :
    parsedGroupL (g ++ '-' :: v) = g ∧
    parsedValueL (g ++ '-' :: v) = v.takeWhile (fun c => c != '-') := by
  have hsp := splitOnH_hyphen_append g v hg
  constructor
  · simp [parsedGroupL, hsp]
  · cases hv : splitOnH v with
    | nil => exact absurd hv (splitOnH_ne_nil v)
    | cons seg rest =>
      have hhead := splitOnH_head v
      rw [hv] at hhead
      simp only [List.headD] at hhead
      simp [parsedValueL, hsp, hv, hhead]

/-- Claim C5 (witness): the amended theorem applied to the split "g-a-b",
whose write value is the segment "a". -/
theorem dispatch_split_amended_witness :
    parsedGroupL (['g'] ++ '-' :: ['a', '-', 'b']) = ['g'] ∧
    parsedValueL (['g'] ++ '-' :: ['a', '-', 'b']) =
      ['a', '-', 'b'].takeWhile (fun c => c != '-') :=
  dispatch_split_amended ['g'] ['a', '-', 'b'] (by decide)

/-- Claim C6 (counterexample): a read of the power group whose stripped
response payload "9" matches no entry of the read-value table fails with the
uncaught KeyError of the inverted-table lookup, not with the command-level
communication error. -/
theorem read_unknown_value_keyerror :
    (Command.read power ⟨.ok, .ok (Command.ackOf power),
        .ok (RES ++ ab "PW" ++ ab "9" ++ [10])⟩ ⟨true, []⟩).1 =
      .error (.keyError (ab "9")) ∧
    (Command.read power ⟨.ok, .ok (Command.ackOf power),
        .ok (RES ++ ab "PW" ++ ab "9" ++ [10])⟩ ⟨true, []⟩).1 ≠
      .error .commandError := by
  decide

/-- Claim C6 (amended): for every group with a non-empty read-value table,
a read whose stripped response payload matches no binary value of the table
fails with the uncaught KeyError carrying that payload (surfaced at the
dispatch layer as the RuntimeError wrapper), which is a different failure
kind than the command-level communication error. -/
theorem read_unknown_value_amended (c : Command) (env : NetEnv) (s : SockState)
    (resp : List Nat) (hwo : c.writeOnly = false) (hopen : s.isOpen = true)
    (hsend : env.sendRes = .ok) (hack : env.ackRecv = .ok (Command.ackOf c))
    (hresp : env.respRecv = .ok resp)
    (hpre : pyStartswith resp (RES ++ c.cmd.take 2) = true)
    (hrv : c.readVals ≠ [])
    (hmiss : dictInvGet c.readVals ((resp.drop (RES.length + 2)).dropLast) = none) :
    (Command.read c env s).1 =
      .error (.keyError ((resp.drop (RES.length + 2)).dropLast)) ∧
    JVCError.keyError ((resp.drop (RES.length + 2)).dropLast) ≠
      JVCError.commandError := by
  have hackStart : pyStartswith (Command.ackOf c) ACKH = true := by
    have h := pyStartswith_append ACKH (c.cmd.take 2 ++ [10])
    simpa [Command.ackOf, List.append_assoc] using h
  refine ⟨?_, by intro h; cases h⟩
  simp [Command.read, Command.send2, Command.verifyAck, sendEff, recvEff,
    hwo, hopen, hsend, hack, hresp, hpre, hackStart, hrv, hmiss]

/-- Claim C6 (witness): the amended theorem applied to a power read whose
response payload byte 57 is absent from the read-value table. -/
theorem read_unknown_value_amended_witness :
    (Command.read power ⟨.ok, .ok (Command.ackOf power),
        .ok (RES ++ ab "PW" ++ [57, 10])⟩ ⟨true, [[0]]⟩).1 =
      .error (.keyError (((RES ++ ab "PW" ++ [57, 10]).drop
        (RES.length + 2)).dropLast)) ∧
    JVCError.keyError (((RES ++ ab "PW" ++ [57, 10]).drop
        (RES.length + 2)).dropLast) ≠ JVCError.commandError :=
  read_unknown_value_amended power
    ⟨.ok, .ok (Command.ackOf power), .ok (RES ++ ab "PW" ++ [57, 10])⟩
    ⟨true, [[0]]⟩ (RES ++ ab "PW" ++ [57, 10])
    rfl rfl rfl rfl rfl (by decide) (by decide) (by decide)

/-- Claim C7 (confirmed): on a fresh session whose connect succeeds, a
greeting reply other than PJ_OK and an ack reply other than PJACK each raise
the handshake error and release the handle, leaving no open channel, while a
receive timeout at either of those two steps raises the connection error and
never the handshake error, also releasing the handle. -/
theorem handshake_mismatch_vs_timeout (g a : List Nat) (p : String) (m : Nat)
    (hg : g ≠ JVC_GRT) (ha : a ≠ JVC_ACK) :
    handshake ⟨[.success], .ok g, .ok, .ok a⟩ ⟨p, m, none⟩ =
      (.error .handshakeError, ⟨p, m, none⟩) ∧
    handshake ⟨[.success], .timeout, .ok, .ok a⟩ ⟨p, m, none⟩ =
      (.error .connectionError, ⟨p, m, none⟩) ∧
    handshake ⟨[.success], .ok JVC_GRT, .ok, .ok a⟩ ⟨p, m, none⟩ =
      (.error .handshakeError, ⟨p, m, none⟩) ∧
    handshake ⟨[.success], .ok JVC_GRT, .ok, .timeout⟩ ⟨p, m, none⟩ =
      (.error .connectionError, ⟨p, m, none⟩) := by
  refine ⟨?_, ?_, ?_, ?_⟩ <;>
    simp [handshake, connectAux, recvEff, sendEff, openSock, hg, ha]

/-- Claim C7 (witness): the theorem applied to the wrong greeting "HELLO"
and the wrong ack "NOACK" on a fresh passwordless session. -/
theorem handshake_mismatch_vs_timeout_witness :
    handshake ⟨[.success], .ok (ab "HELLO"), .ok, .ok (ab "NOACK")⟩ ⟨"", 5, none⟩ =
      (.error .handshakeError, ⟨"", 5, none⟩) ∧
    handshake ⟨[.success], .timeout, .ok, .ok (ab "NOACK")⟩ ⟨"", 5, none⟩ =
      (.error .connectionError, ⟨"", 5, none⟩) ∧
    handshake ⟨[.success], .ok JVC_GRT, .ok, .ok (ab "NOACK")⟩ ⟨"", 5, none⟩ =
      (.error .handshakeError, ⟨"", 5, none⟩) ∧
    handshake ⟨[.success], .ok JVC_GRT, .ok, .timeout⟩ ⟨"", 5, none⟩ =
      (.error .connectionError, ⟨"", 5, none⟩) :=
  handshake_mismatch_vs_timeout (ab "HELLO") (ab "NOACK") "" 5
    (by decide) (by decide)

/-- Claim C8 (counterexample): an OS-level connect failure with errno EISCONN
on the first attempt, with plenty of retry budget, is not retried: the loop
returns as success after a single attempt with no throttle wait, so not every
non-timeout OS-level connect failure is retried. -/
theorem connect_eisconn_not_retried :
    connectAux 5 [.oserr 106, .success] 0 = ⟨.ok (), closedSock, [.attempt]⟩ ∧
    (connectAux 5 [.oserr 106, .success] 0).events.count Event.attempt = 1 ∧
    Event.throttleWait ∉ (connectAux 5 [.oserr 106, .success] 0).events := by
  refine ⟨by decide, by decide, by decide⟩

/-- Claim C8 (amended): a connect timeout raises the connection error
immediately with no retry; an OS-level already-connected failure (EISCONN) is
treated as success immediately with no retry (keeping the just-closed socket
object); every other OS-level connect failure is retried with a throttle wait
between attempts while the retry count is below max_retries, so N
connection-refused failures followed by success succeed on attempt N+1
whenever N+1 is at most max_retries, and when all attempts up to the limit
fail the connection error wrapping the last cause is raised. -/
theorem connect_retry_amended (m N : Nat) (hN : N + 1 ≤ m)
    (rest : List ConnOutcome) (retry : Nat) :
    connectAux m (.timeout :: rest) retry =
      ⟨.error .connectionError, closedSock, [.attempt]⟩ ∧
    connectAux m (.oserr EISCONN :: rest) retry =
      ⟨.ok (), closedSock, [.attempt]⟩ ∧
    connectAux m (List.replicate N (ConnOutcome.oserr 111) ++ [ConnOutcome.success]) 0 =
      ⟨.ok (), openSock, refusalTrace N⟩ ∧
    connectAux m (List.replicate (m + 1) (ConnOutcome.oserr 111)) 0 =
      ⟨.error .connectionError, closedSock, refusalTrace m⟩ := by
  refine ⟨rfl, by simp [connectAux, EISCONN], ?_, ?_⟩
  · exact connect_refused_success m N 0 (by omega)
  · exact connect_exhausted m m 0 (by omega)

/-- Claim C8 (witness): the amended theorem at max_retries 5 with two
refused attempts before success. -/
theorem connect_retry_amended_witness :
    connectAux 5 (.timeout :: []) 0 =
      ⟨.error .connectionError, closedSock, [.attempt]⟩ ∧
    connectAux 5 (.oserr EISCONN :: []) 0 =
      ⟨.ok (), closedSock, [.attempt]⟩ ∧
    connectAux 5 (List.replicate 2 (ConnOutcome.oserr 111) ++ [ConnOutcome.success]) 0 =
      ⟨.ok (), openSock, refusalTrace 2⟩ ∧
    connectAux 5 (List.replicate (5 + 1) (ConnOutcome.oserr 111)) 0 =
      ⟨.error .connectionError, closedSock, refusalTrace 5⟩ :=
  connect_retry_amended 5 2 (by decide) [] 0

/-- Claim C9 (counterexample): the signal group is read_only and therefore
has an empty write-value table, yet write(signal, "") raises CommandNotFound
and sends nothing instead of emitting the value-less frame, so the claim's
first clause fails for groups that are read_only. -/
theorem write_empty_on_readonly_raises :
    Command.write signal ⟨.ok, .ok (Command.ackOf signal), .ok []⟩ ⟨true, []⟩ "" =
      (.error .commandNotFoundError, ⟨false, []⟩) ∧
    signal.writeVals = [] ∧
    ((Command.write signal ⟨.ok, .ok (Command.ackOf signal), .ok []⟩
        ⟨true, []⟩ "").2).sent ≠ [OPR ++ signal.cmd ++ [10]] := by
  decide

/-- All branches of the send-then-verify tail of Command.write leave exactly
the one new frame in the socket's sent list when the send itself succeeds. -/
theorem writeSend_sent (c : Command) (env : NetEnv) (s : SockState)
    (frame : List Nat) (hopen : s.isOpen = true) (hsend : env.sendRes = .ok) :
    ((Command.writeSend c env s frame).2).sent = s.sent ++ [frame] := by
  simp only [Command.writeSend, Command.send2, sendEff, hopen, if_true, hsend]
  cases hv : c.verifyWrite with
  | false => rfl
  | true =>
    simp only [Bool.not_true, Command.verifyAck, recvEff, hopen, if_true]
    cases env.ackRecv with
    | timeout => rfl
    | oserr => rfl
    | ok d =>
      by_cases h1 : pyStartswith d ACKH
      · by_cases h2 : d = Command.ackOf c
        · rw [h2] at h1
          simp [h1, h2, SockState.closeS]
        · simp [h1, h2, SockState.closeS]
      · simp [h1, SockState.closeS]

/-- Claim C9 (amended): write with an empty value name on a group that is not
read_only and whose write-value table is empty sends exactly the value-less
frame of operation header, group code and terminator; on any group that is
write_only with a non-empty write-value table (and no empty-string key, as
in the whole catalog) it raises CommandNotFound with nothing sent. -/
theorem write_empty_value_amended (c : Command) (env : NetEnv) (s : SockState)
    (hro : c.readOnly = false) (hw : c.writeVals = [])
    (hopen : s.isOpen = true) (hsend : env.sendRes = .ok) :
    ((Command.write c env s "").2).sent = s.sent ++ [OPR ++ c.cmd ++ [10]] ∧
    (∀ (c2 : Command) (env2 : NetEnv) (s2 : SockState),
      c2.writeOnly = true → c2.writeVals ≠ [] → dictGet c2.writeVals "" = none →
      Command.write c2 env2 s2 "" = (.error .commandNotFoundError, s2.closeS) ∧
      (s2.closeS).sent = s2.sent) := by
  constructor
  · have hdg : dictGet c.writeVals "" = none := by rw [hw]; rfl
    simp only [Command.write, hro, Bool.false_eq_true, if_false, hdg, hw]
    simp only [and_true, if_pos rfl]
    exact writeSend_sent c env s _ hopen hsend
  · intro c2 env2 s2 hwo2 hne2 hdg2
    refine ⟨?_, rfl⟩
    by_cases hro2 : c2.readOnly
    · simp [Command.write, hro2]
    · simp [Command.write, hro2, hdg2, hne2, hwo2]

/-- Claim C9 (witness): the amended theorem applied to nullcmd (empty write
table, value-less frame of its two NUL code bytes) and to menu (write_only
with a non-empty table, CommandNotFound with nothing sent). -/
theorem write_empty_value_amended_witness :
    ((Command.write nullcmd ⟨.ok, .ok (Command.ackOf nullcmd), .ok []⟩
        ⟨true, []⟩ "").2).sent =
      (⟨true, []⟩ : SockState).sent ++ [OPR ++ nullcmd.cmd ++ [10]] ∧
    Command.write menu ⟨.ok, .ok (Command.ackOf menu), .ok []⟩ ⟨true, []⟩ "" =
      (.error .commandNotFoundError, SockState.closeS ⟨true, []⟩) ∧
    (SockState.closeS ⟨true, []⟩).sent = (⟨true, []⟩ : SockState).sent := by
  refine ⟨(write_empty_value_amended nullcmd
      ⟨.ok, .ok (Command.ackOf nullcmd), .ok []⟩ ⟨true, []⟩
      (by decide) (by decide) rfl rfl).1, ?_, ?_⟩
  · exact ((write_empty_value_amended nullcmd
      ⟨.ok, .ok (Command.ackOf nullcmd), .ok []⟩ ⟨true, []⟩
      (by decide) (by decide) rfl rfl).2 menu
      ⟨.ok, .ok (Command.ackOf menu), .ok []⟩ ⟨true, []⟩
      (by decide) (by decide) (by decide)).1
  · exact ((write_empty_value_amended nullcmd
      ⟨.ok, .ok (Command.ackOf nullcmd), .ok []⟩ ⟨true, []⟩
      (by decide) (by decide) rfl rfl).2 menu
      ⟨.ok, .ok (Command.ackOf menu), .ok []⟩ ⟨true, []⟩
      (by decide) (by decide) (by decide)).2

/-- Claim C10 (confirmed): for every response the read path accepts — any
byte list starting with the response header followed by the first two bytes
of the group code — the result on a group without a read-value table is the
ASCII decode of the bytes obtained by dropping the five header bytes and
then unconditionally removing exactly the final byte, whatever its value:
no check that this byte is the terminator 0x0A is ever made, and a response
lacking a trailing terminator is not reported as malformed. -/
theorem read_strips_last_byte_unconditionally (c : Command) (env : NetEnv)
    (s : SockState) (resp : List Nat) (hwo : c.writeOnly = false)
    (hopen : s.isOpen = true) (hsend : env.sendRes = .ok)
    (hack : env.ackRecv = .ok (Command.ackOf c))
    (hresp : env.respRecv = .ok resp)
    (hpre : pyStartswith resp (RES ++ c.cmd.take 2) = true)
    (hrv : c.readVals = []) :
    (Command.read c env s).1 = decodeAscii ((resp.drop (RES.length + 2)).dropLast) := by
  have hackStart : pyStartswith (Command.ackOf c) ACKH = true := by
    have h := pyStartswith_append ACKH (c.cmd.take 2 ++ [10])
    simpa [Command.ackOf, List.append_assoc] using h
  simp [Command.read, Command.send2, Command.verifyAck, sendEff, recvEff,
    hwo, hopen, hsend, hack, hresp, hpre, hackStart, hrv]

/-- Claim C10 (witness): a macaddr read whose response RES + "LS" + "AB"
carries no trailing terminator still has its last payload byte stripped and
decodes to "A" with no malformed-response error. -/
theorem read_strips_last_byte_witness :
    (Command.read macaddr ⟨.ok, .ok (Command.ackOf macaddr),
        .ok (RES ++ ab "LS" ++ ab "AB")⟩ ⟨true, []⟩).1 =
      decodeAscii (((RES ++ ab "LS" ++ ab "AB").drop (RES.length + 2)).dropLast) ∧
    decodeAscii (((RES ++ ab "LS" ++ ab "AB").drop (RES.length + 2)).dropLast) =
      .ok "A" := by
  refine ⟨read_strips_last_byte_unconditionally macaddr
    ⟨.ok, .ok (Command.ackOf macaddr), .ok (RES ++ ab "LS" ++ ab "AB")⟩
    ⟨true, []⟩ (RES ++ ab "LS" ++ ab "AB")
    rfl rfl rfl rfl rfl (by decide) rfl, by decide⟩

end JVC
